import Mathlib

/-!
Verification development for the Voice V10 voice-control pipeline
(voice_core: stream_parser.py, cli_bridge.py, tts_summarizer.py, voice_v10.py).

The Python modules are shallowly embedded as executable Lean functions.
Python's dynamically-typed JSON-ish values are modelled by `PyVal`; code that
can raise (AttributeError / TypeError / IndexError on ill-typed values)
returns `Except PyErr`.  Machine floats appear only as millisecond timestamps
and RMS energies; both are modelled exactly with `Nat` milliseconds and `ℚ`
(an RMS threshold comparison `rms > t` is replaced by the equivalent
`rms^2 > t^2`, avoiding square roots).
-/

/-- A Python value as produced by `json.loads` (plus `None`), used to model
the dynamically-typed payloads flowing through the pipeline. -/
inductive PyVal where
  | str (s : String)
  | int (n : Int)
  | bool (b : Bool)
  | none
  | list (xs : List PyVal)
  | dict (kvs : List (String × PyVal))

/-- A Python dict with string keys (a decoded JSON object). -/
abbrev PyDict := List (String × PyVal)

/-- Dynamic-typing errors that the embedded Python code can raise. -/
inductive PyErr where
  | attributeError
  | typeError
  | indexError
deriving DecidableEq

/-- Characters treated as whitespace by Python's `str.strip` / `str.split`
(ASCII subset; the unicode cases do not occur in this pipeline). -/
def isPyWs (c : Char) : Bool :=
  c = ' ' || c = '\t' || c = '\n' || c = '\r' || c = '\x0b' || c = '\x0c'

/-- Python `str.strip()`. -/
def strStrip (s : String) : String :=
  String.mk (((s.toList.dropWhile isPyWs).reverse.dropWhile isPyWs).reverse)

/-- Split a character list at every character satisfying `p`, keeping empty
pieces (the semantics of Python `str.split(sep)` for one-character
separators).  Structurally recursive so that the kernel can evaluate it. -/
def splitBy (p : Char → Bool) : List Char → List (List Char)
  | [] => [[]]
  | c :: rest =>
    match splitBy p rest with
    | [] => if p c then [[], []] else [[c]]
    | g :: gs => if p c then [] :: g :: gs else (c :: g) :: gs

/-- Python `s.split(sep)` for a one-character separator. -/
def pySplit (sep : Char) (s : String) : List String :=
  (splitBy (fun c => c = sep) s.toList).map String.mk

/-- Python `str.split()` with no argument: split on whitespace runs,
dropping empty pieces. -/
def splitWs (s : String) : List String :=
  ((splitBy isPyWs s.toList).map String.mk).filter (fun t => t != "")

/-- Python `c in s` for a single character. -/
def strContains (s : String) (c : Char) : Bool :=
  s.toList.contains c

/-- Does the second list start with the first? -/
def listStarts : List Char → List Char → Bool
  | [], _ => true
  | _ :: _, [] => false
  | p :: ps, c :: cs => p = c && listStarts ps cs

/-- Python `s.endswith(suf)`. -/
def strEndsWith (s suf : String) : Bool :=
  listStarts suf.toList.reverse s.toList.reverse

/-- Python `s[:n]` (first `n` code points). -/
def strTake (s : String) (n : Nat) : String :=
  String.mk (s.toList.take n)

/-- Python `sep.join(strs)` for string elements (kernel-evaluable
replacement for `String.intercalate`). -/
def strJoin (sep : String) : List String → String
  | [] => ""
  | s :: rest => rest.foldl (fun acc t => acc ++ sep ++ t) s

/-- Python `dict.get(k, d)`. -/
def pyGet (kvs : PyDict) (k : String) (d : PyVal) : PyVal :=
  match kvs.find? (fun kv => kv.1 == k) with
  | some kv => kv.2
  | Option.none => d

/-- Python `v == "lit"` for a string literal: true only on equal `str`s
(no other `PyVal` compares equal to a string). -/
def pyEqStr (v : PyVal) (lit : String) : Bool :=
  match v with
  | .str s => s == lit
  | _ => false

/-- Python truthiness (`bool(v)`). -/
def pyTruthy (v : PyVal) : Bool :=
  match v with
  | .str s => s != ""
  | .int n => n != 0
  | .bool b => b
  | .none => false
  | .list xs => !xs.isEmpty
  | .dict kvs => !kvs.isEmpty

/-- Python `a or b` (returns the first truthy operand, else the second). -/
def pyOr (a b : PyVal) : PyVal :=
  if pyTruthy a then a else b

/-- Whether a `PyVal` is hashable (usable as a dict lookup key);
lists and dicts raise `TypeError` when hashed. -/
def pyHashable (v : PyVal) : Bool :=
  match v with
  | .list _ => false
  | .dict _ => false
  | _ => true

/-- A single-quote character (Python repr quoting), built from its code
point. -/
def pyQuote : String := String.singleton (Char.ofNat 39)

mutual
/-- Python `repr` of a value (string escaping inside `repr` is elided;
no claim below inspects these strings). -/
def pyRepr : PyVal → String
  | .str s => pyQuote ++ s ++ pyQuote
  | .int n => toString n
  | .bool b => if b then "True" else "False"
  | .none => "None"
  | .list xs => "[" ++ strJoin ", " (pyReprList xs) ++ "]"
  | .dict kvs => "\x7b" ++ strJoin ", " (pyReprKVs kvs) ++ "\x7d"

/-- `repr` of each element of a list. -/
def pyReprList : List PyVal → List String
  | [] => []
  | v :: vs => pyRepr v :: pyReprList vs

/-- `repr` of each `key: value` entry of a dict. -/
def pyReprKVs : List (String × PyVal) → List String
  | [] => []
  | (k, v) :: kvs => (pyQuote ++ k ++ pyQuote ++ ": " ++ pyRepr v) :: pyReprKVs kvs
end

/-- Python `str(v)`. -/
def pyStr : PyVal → String
  | .str s => s
  | v => pyRepr v

/-- Python `for x in v`: lists iterate elements, strings iterate their
characters, dicts iterate their keys; other values raise `TypeError`. -/
def pyIter : PyVal → Except PyErr (List PyVal)
  | .list xs => .ok xs
  | .str s => .ok (s.toList.map (fun c => .str (String.singleton c)))
  | .dict kvs => .ok (kvs.map (fun kv => .str kv.1))
  | _ => .error .typeError

/-- Python `sep.join(parts)`: raises `TypeError` unless every part is a
string. -/
def pyJoin (sep : String) (parts : List PyVal) : Except PyErr String := do
  let strs ← parts.mapM (fun v =>
    match v with
    | PyVal.str s => Except.ok s
    | _ => Except.error PyErr.typeError)
  return strJoin sep strs

/-- Python `v.get(k, d)` on an arbitrary value: only dicts have `.get`;
anything else raises `AttributeError`. -/
def dictGetE (v : PyVal) (k : String) (d : PyVal) : Except PyErr PyVal :=
  match v with
  | .dict kvs => .ok (pyGet kvs k d)
  | _ => .error .attributeError

/-- Require a string (for `.strip()` / `.split(...)` attribute access);
other values raise `AttributeError`. -/
def asStr (v : PyVal) : Except PyErr String :=
  match v with
  | .str s => .ok s
  | _ => .error .attributeError

/-- `path.split("/")[-1].split("\\")[-1]` — the base filename under either
path-separator convention (`str.split` on a literal never yields `[]`,
so `[-1]` is the last element). -/
def pyBasename (p : String) : String :=
  (pySplit '\\' ((pySplit '/' p).getLastD "")).getLastD ""

/-! ## stream_parser.py -/

/-- `MessageType` — types of messages from Claude CLI stream-json output. -/
inductive MessageType where
  | ASSISTANT
  | TOOL_USE
  | TOOL_RESULT
  | RESULT
  | SYSTEM
  | ERROR
  | RAW
  | UNKNOWN
deriving DecidableEq

/-- `ParsedMessage` — parsed message from Claude CLI stream output.
Optional fields default to Python `None` (`PyVal.none`); the dataclass does
not enforce its type annotations, so every field can hold any value the
parser stores in it. -/
structure ParsedMessage where
  type : MessageType
  text : PyVal := PyVal.none
  tool_name : PyVal := PyVal.none
  tool_input : PyVal := PyVal.none
  tool_result : PyVal := PyVal.none
  is_error : PyVal := PyVal.bool false
  raw_data : PyDict := []

/-- `StreamParser.TOOL_NAMES` — tool name → friendly phrase table. -/
def TOOL_NAMES : List (String × String) :=
  [("Read", "reading file"), ("Write", "writing file"), ("Edit", "editing file"),
   ("Bash", "running command"), ("Glob", "searching for files"),
   ("Grep", "searching in files"), ("Task", "starting a task"),
   ("WebFetch", "fetching web content"), ("WebSearch", "searching the web"),
   ("TodoWrite", "updating task list"), ("AskUserQuestion", "asking a question")]

/-- `StreamParser._format_tool_announcement`.  `tool_input.get(...)` raises
`AttributeError` when `tool_input` is not a dict; `path.split(...)` raises
when the path value is not a string; `cmd.split()[0]` raises `IndexError`
when a truthy command is all whitespace. -/
def format_tool_announcement (tool_name tool_input : PyVal) :
    Except PyErr String :=
  if pyEqStr tool_name "Read" then do
    let path ← dictGetE tool_input "file_path" (.str "a file")
    let p ← asStr path
    return "Reading " ++ pyBasename p
  else if pyEqStr tool_name "Write" then do
    let path ← dictGetE tool_input "file_path" (.str "a file")
    let p ← asStr path
    return "Writing " ++ pyBasename p
  else if pyEqStr tool_name "Edit" then do
    let path ← dictGetE tool_input "file_path" (.str "a file")
    let p ← asStr path
    return "Editing " ++ pyBasename p
  else if pyEqStr tool_name "Bash" then do
    let cmd ← dictGetE tool_input "command" (.str "")
    if pyTruthy cmd then
      let c ← asStr cmd
      match splitWs c with
      | [] => .error .indexError
      | w :: _ => return "Running " ++ w
    else
      return "Running a command"
  else if pyEqStr tool_name "Glob" then do
    let pattern ← dictGetE tool_input "pattern" (.str "files")
    return "Searching for " ++ pyStr pattern
  else if pyEqStr tool_name "Grep" then do
    let pattern ← dictGetE tool_input "pattern" (.str "text")
    return "Searching for " ++ pyStr pattern
  else if pyEqStr tool_name "Task" then do
    let desc ← dictGetE tool_input "description" (.str "a task")
    return "Starting " ++ pyStr desc
  else if pyEqStr tool_name "WebFetch" then do
    let url ← dictGetE tool_input "url" (.str "a webpage")
    return "Fetching " ++ pyStr url
  else if pyEqStr tool_name "WebSearch" then do
    let query ← dictGetE tool_input "query" (.str "")
    return "Searching for " ++ pyStr query
  else
    return "Using " ++ pyStr tool_name

/-- The text-block accumulation loop of `StreamParser._parse_assistant`:
dict blocks of `type == "text"` contribute their `"text"` field, string
blocks contribute themselves, other blocks are skipped. -/
def collectTextParts (blocks : List PyVal) : List PyVal :=
  blocks.foldl (fun acc block =>
    match block with
    | .dict bkvs =>
        if pyEqStr (pyGet bkvs "type" PyVal.none) "text" then
          acc ++ [pyGet bkvs "text" (.str "")]
        else acc
    | .str s => acc ++ [PyVal.str s]
    | _ => acc) []

/-- `StreamParser._parse_assistant`.  `message.get("content", [])` raises
`AttributeError` when the `message` field is not a dict; iterating a
non-iterable `content` raises `TypeError`; `" ".join` raises `TypeError`
when a collected part is not a string. -/
def parse_assistant (data : PyDict) : Except PyErr ParsedMessage :=
  match pyGet data "message" (.dict []) with
  | .dict mkvs =>
    match pyIter (pyGet mkvs "content" (.list [])) with
    | .error e => .error e
    | .ok blocks =>
      match collectTextParts blocks with
      | [] => .ok { type := .ASSISTANT, text := PyVal.none, raw_data := data }
      | p :: ps =>
        match pyJoin " " (p :: ps) with
        | .error e => .error e
        | .ok j =>
          .ok { type := .ASSISTANT, text := .str (strStrip j), raw_data := data }
  | _ => .error .attributeError

/-- `StreamParser._parse_tool_use`.  The source first computes
`TOOL_NAMES.get(tool_name, f"using {tool_name}")` (whose only observable
effect is a `TypeError` on an unhashable tool name; the value itself is
never used by `_format_tool_announcement`), then builds the announcement. -/
def parse_tool_use (data : PyDict) : Except PyErr ParsedMessage :=
  let tool_name := pyGet data "tool" (pyGet data "name" (.str "unknown"))
  let tool_input := pyGet data "input" (pyGet data "arguments" (.dict []))
  if pyHashable tool_name then
    match format_tool_announcement tool_name tool_input with
    | .error e => .error e
    | .ok ann =>
      .ok { type := .TOOL_USE, text := .str ann, tool_name := tool_name,
            tool_input := tool_input, raw_data := data }
  else .error .typeError

/-- `StreamParser._parse_tool_result` (total: no attribute access on the
result value; dicts are coerced via `str`, lists via newline-joined
`str` of each item). -/
def parse_tool_result (data : PyDict) : ParsedMessage :=
  let result := pyGet data "result" (pyGet data "output" (.str ""))
  let result2 :=
    match result with
    | .dict kvs => PyVal.str (pyStr (.dict kvs))
    | .list xs => PyVal.str (strJoin "\n" (xs.map pyStr))
    | v => v
  { type := .TOOL_RESULT, tool_result := result2,
    is_error := pyOr (pyGet data "is_error" (.bool false))
                     (pyGet data "error" (.bool false)),
    raw_data := data }

/-- `StreamParser._parse_result` (total). -/
def parse_result (data : PyDict) : ParsedMessage :=
  let result := pyGet data "result" (.str "")
  { type := .RESULT,
    text := .str (match result with | .str s => s | v => pyStr v),
    raw_data := data }

/-- `StreamParser._parse_system` (total). -/
def parse_system (data : PyDict) : ParsedMessage :=
  { type := .SYSTEM,
    text := pyGet data "message" (pyGet data "text" (.str "")),
    raw_data := data }

/-- `StreamParser._parse_error` (total). -/
def parse_error (data : PyDict) : ParsedMessage :=
  let error_text := pyGet data "error" (pyGet data "message" (.str "An error occurred"))
  { type := .ERROR, text := .str ("Error: " ++ pyStr error_text),
    is_error := .bool true, raw_data := data }

/-- `StreamParser.parse_line` — dispatch on the `type` field, defaulting to
`"unknown"` when absent. -/
def parse_line (json_data : PyDict) : Except PyErr ParsedMessage :=
  let msg_type := pyGet json_data "type" (.str "unknown")
  if pyEqStr msg_type "assistant" then parse_assistant json_data
  else if pyEqStr msg_type "tool_use" then parse_tool_use json_data
  else if pyEqStr msg_type "tool_result" then .ok (parse_tool_result json_data)
  else if pyEqStr msg_type "result" then .ok (parse_result json_data)
  else if pyEqStr msg_type "system" then .ok (parse_system json_data)
  else if pyEqStr msg_type "error" then .ok (parse_error json_data)
  else if pyEqStr msg_type "raw" then
    .ok { type := .RAW, text := pyGet json_data "content" PyVal.none,
          raw_data := json_data }
  else
    .ok { type := .UNKNOWN, raw_data := json_data }

/-- The `type` values `parse_line` dispatches on (everything else falls
through to the `unknown` branch). -/
def recognized_type (v : PyVal) : Bool :=
  pyEqStr v "assistant" || pyEqStr v "tool_use" || pyEqStr v "tool_result" ||
  pyEqStr v "result" || pyEqStr v "system" || pyEqStr v "error" ||
  pyEqStr v "raw"

/-! ## tts_summarizer.py -/

/-- `TTSConfig` — configuration for TTS summarization. -/
structure TTSConfig where
  announce_tool_use : Bool := true
  summarize_tool_result : Bool := true
  max_result_words : Nat := 100
  skip_code_blocks : Bool := true
  max_file_list : Nat := 5

/-- The default `TTSConfig()`. -/
def defaultTTSConfig : TTSConfig := {}

/-- `TTSSummarizer._filename` — extract the base filename from a path. -/
def filename (path : String) : String := pyBasename path

/-- The non-empty stripped lines of a result text, exactly as the list
comprehension `[l.strip() for l in text.strip().split('\n') if l.strip()]`
computes them. -/
def fileLines (text : String) : List String :=
  (pySplit '\n' (strStrip text)).filterMap (fun l =>
    let t := strStrip l
    if t = "" then Option.none else some t)

/-- `TTSSummarizer._looks_like_file_list` — at least two lines, and more
than half of them contain a path separator or end in `.py`/`.ts`.
(The Python comparison `path_like > len(lines) * 0.5` is exact for halves,
so it is modelled as `2 * path_like > len(lines)`.) -/
def looks_like_file_list (text : String) : Bool :=
  let lines := pySplit '\n' (strStrip text)
  if lines.length < 2 then false
  else
    let path_like := lines.filter (fun line =>
      strContains line '/' || strContains line '\\' ||
      strEndsWith line ".py" || strEndsWith line ".ts")
    2 * path_like.length > lines.length

/-- `TTSSummarizer._summarize_file_list`. -/
def summarize_file_list (cfg : TTSConfig) (text : String) : String :=
  let lines := fileLines text
  let count := lines.length
  if count = 0 then "No files found"
  else if count = 1 then "Found one file: " ++ filename (lines.headD "")
  else if count ≤ cfg.max_file_list then
    "Found " ++ toString count ++ " files: " ++
      strJoin ", " (lines.map filename)
  else
    "Found " ++ toString count ++ " files including " ++
      strJoin ", " ((lines.take cfg.max_file_list).map filename) ++
      ", and " ++ toString (count - cfg.max_file_list) ++ " more"

/-- `TTSSummarizer._looks_like_search_result` — more than 0.3 of the lines
look like `file:42:...` (a colon with a digit in the second field).  The
float factor `0.3` is modelled as the exact rational 3/10 (the double
rounding of `0.3` cannot change the comparison for the list sizes that
occur here); when a line contains a colon its `split(':')` always has a
second field, mirroring the guarded generator in the source. -/
def looks_like_search_result (text : String) : Bool :=
  let lines := pySplit '\n' (strStrip text)
  let colon_lines := lines.filter (fun line =>
    strContains line ':' &&
    (let parts := pySplit ':' line
     decide (parts.length > 1) && ((parts.get? 1).getD "").toList.any Char.isDigit))
  10 * colon_lines.length > 3 * lines.length

/-- First-occurrence deduplication, modelling the `set` of matched files
(CPython set iteration order is unspecified; only the count matters to the
branches the claims reach). -/
def dedupFirst : List String → List String
  | [] => []
  | s :: rest => s :: (dedupFirst rest).filter (fun t => t != s)

/-- `TTSSummarizer._summarize_search_result`. -/
def summarize_search_result (text : String) : String :=
  let lines := fileLines text
  if lines.isEmpty then "No matches found"
  else
    let files := dedupFirst (lines.filterMap (fun line =>
      if strContains line ':' then some ((pySplit ':' line).headD "")
      else Option.none))
    if files.length = 1 then
      "Found " ++ toString lines.length ++ " matches in " ++
        filename (files.headD "")
    else
      "Found " ++ toString lines.length ++ " matches across " ++
        toString files.length ++ " files"

/-- Match Python regex `\s*\d+` at the head of a line and require one more
`\s` after the digits; a trailing newline (present unless this is the last
line of the text) can serve as that final `\s`. -/
def lineNumThenWs (l : String) (hasNewlineAfter : Bool) : Bool :=
  let t := l.toList.dropWhile isPyWs
  let ds := t.takeWhile Char.isDigit
  !ds.isEmpty &&
    (match t.drop ds.length with
     | c :: _ => isPyWs c
     | [] => hasNewlineAfter)

/-- `re.search(r'^\s*\d+\s+', text, re.MULTILINE)` over the split lines. -/
def anyLineNumThenWs : List String → Bool
  | [] => false
  | [l] => lineNumThenWs l false
  | l :: l2 :: rest => lineNumThenWs l true || anyLineNumThenWs (l2 :: rest)

/-- Match a literal pattern at the head of a character list, returning the
remainder. -/
def patMatch : List Char → List Char → Option (List Char)
  | [], cs => some cs
  | _ :: _, [] => Option.none
  | p :: ps, c :: cs => if p = c then patMatch ps cs else Option.none

/-- `re.search` for a literal followed by one character satisfying `test`
(models the `total \d+` and `commit [a-f0-9]+` patterns). -/
def containsPatThen (pat : List Char) (test : Char → Bool) : List Char → Bool
  | [] => false
  | c :: rest =>
    (match patMatch pat (c :: rest) with
     | some (d :: _) => test d
     | _ => false) || containsPatThen pat test rest

/-- A lowercase hex digit (`[a-f0-9]`). -/
def isHexLower (c : Char) : Bool :=
  c.isDigit || (decide ('a' ≤ c) && decide (c ≤ 'f'))

/-- `TTSSummarizer._looks_like_command_output` — any of four patterns:
a line-numbered line, `total N`, `commit <hex>`, or a line starting with a
dash.  (Hand-rolled rendering of the multiline regexes; a `\s*` crossing a
newline is subsumed by the anchor at the following line.) -/
def looks_like_command_output (text : String) : Bool :=
  let lines := pySplit '\n' text
  anyLineNumThenWs lines ||
  containsPatThen "total ".toList Char.isDigit text.toList ||
  containsPatThen "commit ".toList isHexLower text.toList ||
  lines.any (fun l =>
    match l.toList.dropWhile isPyWs with
    | c :: _ => c = '-'
    | [] => false)

/-- `TTSSummarizer._truncate_to_words` — `re.sub(r'\s+', ' ', text).strip()`
agrees with joining the whitespace-split words by single spaces. -/
def truncate_to_words (text : String) (max_words : Nat) : String :=
  let words := splitWs text
  let cleaned := strJoin " " words
  if words.length ≤ max_words then cleaned
  else strJoin " " (words.take max_words) ++ "..."

/-- `TTSSummarizer._summarize_command_output`. -/
def summarize_command_output (text : String) : String :=
  let lines := pySplit '\n' (strStrip text)
  if lines.length ≤ 3 then truncate_to_words text 30
  else "Command completed with " ++ toString lines.length ++ " lines of output"

/-- `re.match(r'^\s*\d+[\s\t|:]', line)` — a line-number prefix. -/
def lineNumbered (l : String) : Bool :=
  let t := l.toList.dropWhile isPyWs
  let ds := t.takeWhile Char.isDigit
  !ds.isEmpty &&
    (match t.drop ds.length with
     | c :: _ => isPyWs c || c = '|' || c = ':'
     | [] => false)

/-- `TTSSummarizer._looks_like_file_content` — more than half the lines are
numbered (`numbered > len(lines) * 0.5` modelled as `2 * numbered > len`). -/
def looks_like_file_content (text : String) : Bool :=
  let lines := pySplit '\n' (strStrip text)
  2 * (lines.filter lineNumbered).length > lines.length

/-- `TTSSummarizer._summarize_file_content`. -/
def summarize_file_content (text : String) : String :=
  "Read " ++ toString (pySplit '\n' (strStrip text)).length ++
    " lines of content"

/-- `TTSSummarizer._summarize_result`.  The error path calls `.strip()` on
the stored result, which raises `AttributeError` when a truthy non-string
was stored; the non-error path first coerces with `str(result)` and is
total. -/
def summarize_result (cfg : TTSConfig) (result is_error : PyVal) :
    Except PyErr PyVal :=
  if !pyTruthy result then .ok PyVal.none
  else if pyTruthy is_error then do
    let s ← asStr result
    let error_lines := pySplit '\n' (strStrip s)
    return .str ("Error: " ++ strTake (error_lines.headD "") 100)
  else
    let result_str := pyStr result
    if looks_like_file_list result_str then
      .ok (.str (summarize_file_list cfg result_str))
    else if looks_like_search_result result_str then
      .ok (.str (summarize_search_result result_str))
    else if looks_like_command_output result_str then
      .ok (.str (summarize_command_output result_str))
    else if looks_like_file_content result_str then
      .ok (.str (summarize_file_content result_str))
    else
      .ok (.str (truncate_to_words result_str cfg.max_result_words))

/-- `TTSSummarizer.summarize_for_speech`.  The markdown/code-stripping
pipeline `_process_assistant_text` is regex-heavy and inspected by no claim;
it is passed in as the parameter `process_assistant_text`, so every theorem
below holds for every implementation of it. -/
def summarize_for_speech (cfg : TTSConfig)
    (process_assistant_text : PyVal → Except PyErr PyVal)
    (parsed : ParsedMessage) : Except PyErr PyVal :=
  if parsed.type = MessageType.ASSISTANT then
    process_assistant_text parsed.text
  else if parsed.type = MessageType.TOOL_USE then
    if cfg.announce_tool_use then .ok parsed.text else .ok PyVal.none
  else if parsed.type = MessageType.TOOL_RESULT then
    if cfg.summarize_tool_result then
      summarize_result cfg parsed.tool_result parsed.is_error
    else .ok PyVal.none
  else if parsed.type = MessageType.ERROR then .ok parsed.text
  else if parsed.type = MessageType.RESULT then
    process_assistant_text parsed.text
  else .ok PyVal.none

/-! ## cli_bridge.py -/

/-- The `{"type": "raw", "content": text}` wrapper the Bridge yields for a
line that fails JSON decoding. -/
def raw_wrap (text : String) : PyVal :=
  .dict [("type", .str "raw"), ("content", .str text)]

/-- The stdout read loop of `ClaudeCLIBridge.execute`, for one uncancelled
run over the finite list of lines the subprocess wrote: each line is
stripped; empty text is skipped (`if text:`); otherwise `json.loads` is
attempted (modelled by the `decode` parameter, `Option.none` meaning
`JSONDecodeError`) and a failure yields the `raw` wrapper around the
stripped text. -/
def read_stream (decode : String → Option PyVal) : List String → List PyVal
  | [] => []
  | line :: rest =>
    let text := strStrip line
    if text = "" then read_stream decode rest
    else
      match decode text with
      | some message => message :: read_stream decode rest
      | Option.none => raw_wrap text :: read_stream decode rest

/-- The live-subprocess handle owned by the Bridge.  `killFails` models the
(deterministic, per-handle) failure of `terminate()` whose exception the
source swallows with `except Exception: pass`. -/
structure ProcHandle where
  pid : Nat
  returncode : Option Int := Option.none
  killFails : Bool := false
deriving DecidableEq

/-- `ClaudeCLIBridge` state.  `uuid.uuid4()` is modelled as a fresh-name
counter: each draw returns the current `uuidCtr` and increments it, so a
drawn identifier is always distinct from every earlier one. -/
structure BridgeState where
  session_id : Nat
  uuidCtr : Nat
  process : Option ProcHandle := Option.none
  cancelled : Bool := false
deriving DecidableEq

/-- `ClaudeCLIBridge.__init__(session_id=...)`: an explicit id is adopted
(with the fresh counter past it), otherwise one is drawn. -/
def initBridge : Option Nat → BridgeState
  | some n => { session_id := n, uuidCtr := n + 1 }
  | Option.none => { session_id := 0, uuidCtr := 1 }

/-- `ClaudeCLIBridge.is_running` — true iff a subprocess exists with no
returncode yet. -/
def is_running (st : BridgeState) : Bool :=
  match st.process with
  | some p => p.returncode.isNone
  | Option.none => false

/-- `ClaudeCLIBridge.cancel` — sets the cancelled flag; if a live process
exists it is terminated (returncode set), and a termination failure is
swallowed, leaving the process untouched.  Total: nothing is raised. -/
def cancel (st : BridgeState) : BridgeState :=
  let st1 := { st with cancelled := true }
  match st.process with
  | some p =>
    if p.returncode = Option.none then
      if p.killFails then st1
      else { st1 with process := some { p with returncode := some (-15) } }
    else st1
  | Option.none => st1

/-- Observable call order inside `reset_session`. -/
inductive BridgeEvent where
  | cancelCalled
  | sessionIdAssigned (old new : Nat)
deriving DecidableEq

/-- `cancel` with its trace event. -/
def cancelT (st : BridgeState) : BridgeState × List BridgeEvent :=
  (cancel st, [.cancelCalled])

/-- `ClaudeCLIBridge.reset_session` — `self.cancel()` first, then
`self.session_id = str(uuid.uuid4())`, in that statement order (the trace
records the order). -/
def reset_session (st : BridgeState) : BridgeState × List BridgeEvent :=
  let (st1, ev1) := cancelT st
  let newId := st1.uuidCtr
  ({ st1 with session_id := newId, uuidCtr := st1.uuidCtr + 1 },
   ev1 ++ [.sessionIdAssigned st.session_id newId])

/-- Bridge well-formedness: the current session id was drawn from (or
adopted below) the fresh-name counter. -/
def BridgeWF (st : BridgeState) : Prop := st.session_id < st.uuidCtr

/-! ## voice_v10.py -/

/-- `VoiceConfig` — only the fields the modelled code paths read. -/
structure VoiceConfig where
  sample_rate : Nat := 16000
  vad_threshold : ℚ := 2 / 100
  vad_silence_ms : Nat := 800
  vad_min_speech_ms : Nat := 300
  enable_barge_in : Bool := true

/-- The default `VoiceConfig()`. -/
def defaultVoiceConfig : VoiceConfig := {}

/-- One 100 ms audio frame of int16 samples. -/
abbrev Frame := List Int

/-- `np.mean((chunk/32768.0)**2)` — the mean square of the normalized
signal (`np.mean` of an empty frame is NaN, which compares false against
the threshold; modelled as 0, which also compares false for the positive
thresholds in use). -/
def frameMeanSq (f : Frame) : ℚ :=
  if f.length = 0 then 0
  else (f.map (fun s => ((s : ℚ) / 32768) ^ 2)).sum / f.length

/-- `rms > vad_threshold` decided via the equivalent square comparison
(both sides nonnegative). -/
def is_speech_frame (cfg : VoiceConfig) (f : Frame) : Bool :=
  frameMeanSq f > cfg.vad_threshold ^ 2

/-- The mutable segmentation state of `VoiceV10._capture_speech`.
Timestamps are in milliseconds; the source's `time.time()` floats are exact
multiples of the 100 ms frame cadence in this model.  Note the source never
clears `speech_start` on reset. -/
structure VadState where
  chunks : List Frame := []
  speechDetected : Bool := false
  silenceStart : Option Nat := Option.none
  speechStart : Option Nat := Option.none
deriving DecidableEq

/-- Result of one iteration of the capture loop body. -/
inductive CaptureStep where
  | done (chunks : List Frame)
  | cont (st : VadState)
deriving DecidableEq

/-- One iteration of the `while self._running` loop body of
`VoiceV10._capture_speech`, at wall-clock time `t` ms.  Mirrors the source:
a speech frame (re)marks speech and clears the silence clock; a silence
frame after speech is appended and, once the silence span exceeds
`vad_silence_ms`, the guard `if speech_start and (now - speech_start) * 1000
> vad_min_speech_ms` decides between returning (`done`) and discarding the
attempt (reset, keeping the stale `speech_start`).  Python's `and` treats
a 0.0 timestamp as falsy, hence the `p ≠ 0` conjunct. -/
def capture_step (cfg : VoiceConfig) (t : Nat) (st : VadState) (f : Frame) :
    CaptureStep :=
  if is_speech_frame cfg f then
    .cont { chunks := st.chunks ++ [f], speechDetected := true,
            silenceStart := Option.none,
            speechStart := if st.speechDetected then st.speechStart else some t }
  else if st.speechDetected then
    let chunks' := st.chunks ++ [f]
    match st.silenceStart with
    | Option.none =>
      .cont { st with chunks := chunks', silenceStart := some t }
    | some s =>
      if t - s > cfg.vad_silence_ms then
        if (match st.speechStart with
            | some p => decide (p ≠ 0) && decide (t - p > cfg.vad_min_speech_ms)
            | Option.none => false) then
          .done chunks'
        else
          .cont { chunks := [], speechDetected := false,
                  silenceStart := Option.none, speechStart := st.speechStart }
      else
        .cont { st with chunks := chunks' }
  else .cont st

/-- The capture loop over a finite frame sequence; frame `i` is processed at
time `(i+1) * 100` ms.  `some chunks` models the `break` followed by
`np.concatenate(chunks)`; `Option.none` models the loop still waiting when
the sequence ends (no utterance returned). -/
def capture_run (cfg : VoiceConfig) :
    List Frame → Nat → VadState → Option (List Frame)
  | [], _, _ => Option.none
  | f :: rest, i, st =>
    match capture_step cfg ((i + 1) * 100) st f with
    | .done cs => some cs
    | .cont st' => capture_run cfg rest (i + 1) st'

/-- The playback loop `VoiceV10._tts_consumer` over the queue contents
(`Option.none` is the end-of-turn sentinel).  The shared interrupt flag
`_barge_in_detected` is sampled at two program points per iteration — once
before `_speak` (the `continue` guard) and once after (the `break` guard);
sample moments are indexed so that iteration `i` reads `flag (2*i)` and
`flag (2*i+1)`.  Returns the `(index, text)` pairs actually spoken. -/
def tts_consumer (flag : Nat → Bool) :
    List (Option String) → Nat → List (Nat × String)
  | [], _ => []
  | Option.none :: _, _ => []
  | some t :: rest, i =>
    if flag (2 * i) then tts_consumer flag rest (i + 1)
    else
      (i, t) ::
        (if flag (2 * i + 1) then [] else tts_consumer flag rest (i + 1))

/-- The streaming loop of `VoiceV10._execute_and_speak`: before parsing each
message it polls `_barge_in_detected` (`flag i` for the `i`-th arrival) and,
if set, calls `self._cli.cancel()` and stops.  Returns the messages actually
processed and whether `cancel` was requested. -/
def execute_stream (flag : Nat → Bool) :
    List PyVal → Nat → List PyVal × Bool
  | [], _ => ([], false)
  | m :: rest, i =>
    if flag i then ([], true)
    else
      let r := execute_stream flag rest (i + 1)
      (m :: r.1, r.2)

/-- The branch outcomes that determine which temp audio files survive one
playback unit (`VoiceV10._speak_edge` + `VoiceV10._play_audio_file`).
Each field is the (deterministic) success/failure of one operation in the
source. -/
structure TtsRun where
  hasPygame : Bool
  pygameFails : Bool
  saveFails : Bool
  cancelSet : Bool
  ffmpegMakesWav : Bool
  wavReadFails : Bool
  sdPlayFails : Bool
deriving DecidableEq

/-- `VoiceV10._play_audio_file path` for the temp-file world `w` (the list
of existing temp artifacts).  The pygame path touches no temp files but a
mixer failure propagates (returned `Bool`).  The fallback path is wrapped in
`try/except Exception`, so it never raises: ffmpeg may produce the wav;
if reading and playback both succeed the wav is unlinked, otherwise the
exception handler skips the `os.unlink(wav_path)` statement. -/
def play_audio_file (o : TtsRun) (wavPath : String) (w : List String) :
    List String × Bool :=
  if o.hasPygame then (w, o.pygameFails)
  else
    let w1 := if o.ffmpegMakesWav then w ++ [wavPath] else w
    if o.ffmpegMakesWav && !o.wavReadFails && !o.sdPlayFails then
      (w1.filter (fun f => f != wavPath), false)
    else (w1, false)

/-- `VoiceV10._speak_edge` for one playback unit: the spooled mp3 is
created, the body (`communicate.save`; cancel check; playback) runs, and
the `finally` block unlinks the mp3 on every exit path (its own failure
swallowed).  Returns the surviving temp files and whether the body raised
(the caller `_speak` swallows that, too). -/
def speak_edge (o : TtsRun) (w : List String) : List String × Bool :=
  let w1 := w ++ ["tmp.mp3"]
  let body : List String × Bool :=
    if o.saveFails then (w1, true)
    else if o.cancelSet then (w1, false)
    else play_audio_file o "tmp.wav" w1
  (body.1.filter (fun f => f != "tmp.mp3"), body.2)

/-! ## Theorems -/

/-- C1 (counterexample): the totality claim fails — on the concrete JSON
object `{"type": "assistant", "message": "hi"}` the source evaluates
`"hi".get("content", [])` and raises `AttributeError`, so `parse_line` does
not return a message for every input dictionary. -/
theorem parse_line_assistant_nondict_message_raises :
    parse_line [("type", PyVal.str "assistant"), ("message", PyVal.str "hi")] =
      .error .attributeError := by
  rfl

/-- C1 (amended): for every raw structured line whose `type` field is
absent, non-string, or an unrecognized string, `parse_line` returns the
`unknown` variant (with the payload preserved) and never raises.  The
original claim's totality over arbitrary nested field types is what the
counterexample refutes. -/
theorem parse_line_unrecognized_unknown (data : PyDict)
    (h : recognized_type (pyGet data "type" (.str "unknown")) = false) :
    parse_line data = .ok { type := MessageType.UNKNOWN, raw_data := data } := by
  unfold recognized_type at h
  simp only [Bool.or_eq_false_iff] at h
  obtain ⟨⟨⟨⟨⟨⟨h1, h2⟩, h3⟩, h4⟩, h5⟩, h6⟩, h7⟩ := h
  unfold parse_line
  simp [h1, h2, h3, h4, h5, h6, h7]

/-- Witness for `parse_line_unrecognized_unknown` at the concrete line
`{"type": "bogus"}`. -/
theorem parse_line_unrecognized_unknown_witness :
    recognized_type (pyGet [("type", PyVal.str "bogus")] "type" (.str "unknown")) = false ∧
    parse_line [("type", PyVal.str "bogus")] =
      .ok { type := MessageType.UNKNOWN, raw_data := [("type", PyVal.str "bogus")] } :=
  ⟨rfl, parse_line_unrecognized_unknown [("type", PyVal.str "bogus")] rfl⟩

/-- Every `ok` result of `parse_assistant` carries the original payload. -/
theorem parse_assistant_raw (data : PyDict) (m : ParsedMessage)
    (h : parse_assistant data = .ok m) : m.raw_data = data := by
  unfold parse_assistant at h
  repeat' split at h
  all_goals
    first
    | (simp only [Except.ok.injEq] at h; subst h; rfl)
    | simp at h

/-- Every `ok` result of `parse_tool_use` carries the original payload. -/
theorem parse_tool_use_raw (data : PyDict) (m : ParsedMessage)
    (h : parse_tool_use data = .ok m) : m.raw_data = data := by
  unfold parse_tool_use at h
  dsimp only at h
  split_ifs at h
  all_goals try split at h
  all_goals
    first
    | (simp only [Except.ok.injEq] at h; subst h; rfl)
    | simp at h

/-- C9: whenever `parse_line` returns without raising, the returned
message's `raw_data` field is the original input payload, unmodified, on
every branch of the normalizer. -/
theorem parse_line_preserves_raw_data (data : PyDict) (m : ParsedMessage)
    (h : parse_line data = .ok m) : m.raw_data = data := by
  unfold parse_line at h
  dsimp only at h
  split_ifs at h
  all_goals
    first
    | exact parse_assistant_raw data m h
    | exact parse_tool_use_raw data m h
    | (simp only [Except.ok.injEq] at h; subst h; rfl)

/-- Witness for `parse_line_preserves_raw_data` on a concrete `result`
line. -/
theorem parse_line_preserves_raw_data_witness :
    parse_line [("type", PyVal.str "result"), ("result", PyVal.str "done")] =
      .ok { type := MessageType.RESULT, text := PyVal.str "done",
            raw_data := [("type", PyVal.str "result"), ("result", PyVal.str "done")] } ∧
    ({ type := MessageType.RESULT, text := PyVal.str "done",
       raw_data := [("type", PyVal.str "result"), ("result", PyVal.str "done")] } :
        ParsedMessage).raw_data =
      [("type", PyVal.str "result"), ("result", PyVal.str "done")] :=
  ⟨rfl, parse_line_preserves_raw_data
          [("type", PyVal.str "result"), ("result", PyVal.str "done")] _ rfl⟩

/-- C10: messages of type `system`, `raw`, or `unknown` are never spoken —
`summarize_for_speech` returns `None` for them (for every configuration and
every implementation of the assistant-text pipeline), even when they carry
non-empty text. -/
theorem summarize_silent_types (cfg : TTSConfig)
    (pat : PyVal → Except PyErr PyVal) (parsed : ParsedMessage)
    (h : parsed.type = MessageType.SYSTEM ∨ parsed.type = MessageType.RAW ∨
         parsed.type = MessageType.UNKNOWN) :
    summarize_for_speech cfg pat parsed = .ok PyVal.none := by
  rcases h with h | h | h <;> simp [summarize_for_speech, h]

/-- Witness for `summarize_silent_types`: a `system` message carrying
non-empty text is still silent. -/
theorem summarize_silent_types_witness :
    ({ type := MessageType.SYSTEM, text := PyVal.str "hello" } :
        ParsedMessage).type = MessageType.SYSTEM ∧
    summarize_for_speech defaultTTSConfig (fun v => .ok v)
      { type := MessageType.SYSTEM, text := PyVal.str "hello" } = .ok PyVal.none :=
  ⟨rfl, summarize_silent_types defaultTTSConfig (fun v => .ok v)
          { type := MessageType.SYSTEM, text := PyVal.str "hello" } (Or.inl rfl)⟩

/-- C2 (counterexample): a whitespace-only line fails JSON decoding
(`json.loads` cannot parse it), yet the Bridge's read loop skips it behind
the `if text:` guard and yields nothing — the line is dropped rather than
wrapped as a `raw` message carrying its text. -/
theorem read_stream_blank_line_dropped :
    read_stream (fun _ => Option.none) [" "] = [] ∧
    ([] : List PyVal) ≠ [raw_wrap " "] :=
  ⟨rfl, by simp⟩

/-- C2 (amended): during one uncancelled execute call, every line whose
stripped text is non-empty is yielded as exactly one message — the decoded
object when the line decodes, otherwise one `raw` message carrying the
stripped text — in exactly the order the lines were received; lines that
strip to nothing are silently skipped. -/
theorem read_stream_per_line (decode : String → Option PyVal)
    (lines : List String) :
    read_stream decode lines =
      lines.filterMap (fun line =>
        let text := strStrip line
        if text = "" then Option.none
        else
          match decode text with
          | some message => some message
          | Option.none => some (raw_wrap text)) := by
  induction lines with
  | nil => rfl
  | cons l rest ih =>
    by_cases hl : strStrip l = ""
    · simp [read_stream, hl, ih]
    · cases hdec : decode (strStrip l) <;> simp [read_stream, hl, hdec, ih]

/-- The concrete seven-path tool result from the source's own test block. -/
def c7text : String :=
  "src/main.py\nsrc/utils.py\nsrc/config.py\ntests/test_main.py\ntests/test_utils.py\ntests/test_config.py\ntests/test_extra.py"

/-- C7 (counterexample): on seven path-like lines with the default cap of 5
the summary is "Found 7 files including a, b, c, d, e, and 2 more" — it does
not have the claimed form "Found N files: a, b, and K more" (the source
writes " files including ", not " files: "). -/
theorem summarize_file_list_wording :
    summarize_result defaultTTSConfig (.str c7text) (.bool false) =
      .ok (.str "Found 7 files including main.py, utils.py, config.py, test_main.py, test_utils.py, and 2 more") ∧
    ("Found 7 files including main.py, utils.py, config.py, test_main.py, test_utils.py, and 2 more" : String) ≠
      "Found 7 files: main.py, utils.py, config.py, test_main.py, test_utils.py, and 2 more" :=
  ⟨rfl, by decide⟩

/-- C7 (amended): for every non-error tool result classified as a file
list, when the number N of non-empty lines exceeds the (positive) cap, the
summary is "Found N files including a, ..., e, and K more" with exactly cap
base filenames and K = N - cap; in particular N = 7 with cap 5 reports the
count 7, five base names, and "and 2 more". -/
theorem summarize_file_list_over_cap (cfg : TTSConfig) (s : String)
    (hclass : looks_like_file_list s = true)
    (hcap : 1 ≤ cfg.max_file_list)
    (hN : cfg.max_file_list < (fileLines s).length) :
    summarize_result cfg (.str s) (.bool false) =
      .ok (.str ("Found " ++ toString (fileLines s).length ++
        " files including " ++
        strJoin ", " (((fileLines s).take cfg.max_file_list).map filename) ++
        ", and " ++ toString ((fileLines s).length - cfg.max_file_list) ++
        " more")) ∧
    (((fileLines s).take cfg.max_file_list).map filename).length =
      cfg.max_file_list := by
  have hs : s ≠ "" := by
    rintro rfl
    exact absurd hclass (by decide)
  have hc0 : ¬ (fileLines s).length = 0 := by omega
  have hc1 : ¬ (fileLines s).length = 1 := by omega
  have hcle : ¬ (fileLines s).length ≤ cfg.max_file_list := by omega
  constructor
  · simp [summarize_result, pyTruthy, pyStr, hs, hclass,
          summarize_file_list, hc0, hc1, hcle]
  · simp only [List.length_map, List.length_take]
    omega

/-- Witness for `summarize_file_list_over_cap` at the concrete seven-line
result with the default configuration. -/
theorem summarize_file_list_over_cap_witness :
    looks_like_file_list c7text = true ∧
    1 ≤ defaultTTSConfig.max_file_list ∧
    defaultTTSConfig.max_file_list < (fileLines c7text).length ∧
    summarize_result defaultTTSConfig (.str c7text) (.bool false) =
      .ok (.str ("Found " ++ toString (fileLines c7text).length ++
        " files including " ++
        strJoin ", "
          (((fileLines c7text).take defaultTTSConfig.max_file_list).map filename) ++
        ", and " ++
        toString ((fileLines c7text).length - defaultTTSConfig.max_file_list) ++
        " more")) :=
  ⟨rfl, by decide, by decide,
   (summarize_file_list_over_cap defaultTTSConfig c7text rfl (by decide)
      (by decide)).1⟩

/-- `cancel` never touches the session identifier or the fresh-name
counter, and always sets the cancelled flag. -/
theorem cancel_fields (st : BridgeState) :
    (cancel st).uuidCtr = st.uuidCtr ∧
    (cancel st).session_id = st.session_id ∧
    (cancel st).cancelled = true := by
  obtain ⟨sid, ctr, proc, cfl⟩ := st
  rcases proc with _ | ⟨pid, rc, kf⟩
  · exact ⟨rfl, rfl, rfl⟩
  · rcases rc with _ | c
    · cases kf <;> exact ⟨rfl, rfl, rfl⟩
    · exact ⟨rfl, rfl, rfl⟩

/-- C5: `reset_session` (from any well-formed Bridge state, during an
active invocation or not) emits the `cancel` call strictly before the
session-identifier assignment, leaves the Bridge cancelled, and the new
session identifier differs from the previous one (freshness of
`uuid.uuid4()` is modelled by the fresh-name counter). -/
theorem reset_session_distinct_after_cancel (st : BridgeState)
    (h : BridgeWF st) :
    (reset_session st).1.session_id ≠ st.session_id ∧
    (reset_session st).1.cancelled = true ∧
    BridgeWF (reset_session st).1 ∧
    (reset_session st).2 =
      [BridgeEvent.cancelCalled,
       BridgeEvent.sessionIdAssigned st.session_id
         (reset_session st).1.session_id] := by
  obtain ⟨hctr, hsid, hcan⟩ := cancel_fields st
  unfold BridgeWF at h ⊢
  refine ⟨?_, ?_, ?_, ?_⟩
  · simp only [reset_session, cancelT]
    simp only [hctr]
    omega
  · simp only [reset_session, cancelT, hcan]
  · simp only [reset_session, cancelT]
    simp only [hctr]
    omega
  · simp [reset_session, cancelT]

/-- Witness for `reset_session_distinct_after_cancel` at a concrete
well-formed state with a live subprocess. -/
theorem reset_session_distinct_after_cancel_witness :
    BridgeWF { session_id := 0, uuidCtr := 1,
               process := some { pid := 7 }, cancelled := false } ∧
    (reset_session { session_id := 0, uuidCtr := 1,
                     process := some { pid := 7 },
                     cancelled := false }).1.session_id ≠ 0 :=
  ⟨Nat.zero_lt_one,
   (reset_session_distinct_after_cancel
      { session_id := 0, uuidCtr := 1, process := some { pid := 7 },
        cancelled := false } Nat.zero_lt_one).1⟩

/-- C6: `cancel` is idempotent — a second call leaves the entire observable
Bridge state (cancelled flag, subprocess handle and hence `is_running`)
exactly as after the first — and with no active subprocess its only effect
is setting the cancelled flag.  A kill failure is modelled by
`ProcHandle.killFails` and swallowed: `cancel` is total and never raises. -/
theorem cancel_idempotent (st : BridgeState) :
    cancel (cancel st) = cancel st ∧
    (st.process = Option.none → cancel st = { st with cancelled := true }) := by
  obtain ⟨sid, ctr, proc, cfl⟩ := st
  constructor
  · rcases proc with _ | ⟨pid, rc, kf⟩
    · rfl
    · rcases rc with _ | c
      · cases kf <;> rfl
      · rfl
  · intro hp
    have hp' : proc = Option.none := hp
    subst hp'
    rfl

/-- Witness for `cancel_idempotent` at the freshly constructed Bridge
(no active invocation). -/
theorem cancel_idempotent_witness :
    cancel (cancel (initBridge Option.none)) = cancel (initBridge Option.none) ∧
    (initBridge Option.none).process = Option.none ∧
    cancel (initBridge Option.none) =
      { initBridge Option.none with cancelled := true } :=
  ⟨(cancel_idempotent (initBridge Option.none)).1, rfl,
   (cancel_idempotent (initBridge Option.none)).2 rfl⟩

/-- Every fragment the playback loop actually speaks was dequeued at an
index at or past the loop's start index, and the interrupt flag read at its
pre-speak check was clear. -/
theorem tts_consumer_spoken_flag (flag : Nat → Bool) :
    ∀ (items : List (Option String)) (i : Nat) (p : Nat × String),
      p ∈ tts_consumer flag items i →
      flag (2 * p.1) = false ∧ i ≤ p.1 := by
  intro items
  induction items with
  | nil => intro i p hp; simp [tts_consumer] at hp
  | cons x rest ih =>
    intro i p hp
    cases x with
    | none => simp [tts_consumer] at hp
    | some t =>
      unfold tts_consumer at hp
      by_cases h1 : flag (2 * i) = true
      · rw [if_pos h1] at hp
        obtain ⟨ha, hb⟩ := ih (i + 1) p hp
        exact ⟨ha, by omega⟩
      · rw [Bool.not_eq_true] at h1
        rw [if_neg (by simp [h1])] at hp
        rcases List.mem_cons.mp hp with rfl | hp'
        · exact ⟨h1, Nat.le_refl i⟩
        · by_cases h2 : flag (2 * i + 1) = true
          · rw [if_pos h2] at hp'
            simp at hp'
          · rw [Bool.not_eq_true] at h2
            rw [if_neg (by simp [h2])] at hp'
            obtain ⟨ha, hb⟩ := ih (i + 1) p hp'
            exact ⟨ha, by omega⟩

/-- If the (monotone) interrupt flag is set by the time the streaming loop
would poll before message `j`, and a message with index at least `j` is
still pending, the loop requests cancellation and processes fewer than
`j - i + 1` messages past its start index `i`. -/
theorem execute_stream_cancel (flag : Nat → Bool) :
    ∀ (msgs : List PyVal) (i j : Nat), i ≤ j → flag j = true →
      j < i + msgs.length →
      (execute_stream flag msgs i).2 = true ∧
      (execute_stream flag msgs i).1.length ≤ j - i := by
  intro msgs
  induction msgs with
  | nil =>
    intro i j h1 h2 h4
    simp at h4
    exact absurd h1 (by omega)
  | cons m rest ih =>
    intro i j h1 h2 h4
    unfold execute_stream
    by_cases hf : flag i = true
    · simp [hf]
    · have hij : i ≠ j := by rintro rfl; exact hf h2
      have hrec := ih (i + 1) j (by omega) h2 (by simp at h4 ⊢; omega)
      rw [if_neg hf]
      refine ⟨hrec.1, ?_⟩
      simp only [List.length_cons]
      omega

/-- C3: once the interrupt flag is set (it is monotone within a turn,
invariant (c) of the spec), no fragment whose pre-speak check happens at or
after that moment is spoken — every spoken fragment read the flag as clear
and was dequeued strictly before index `j` — and the streaming loop of
`_execute_and_speak`, polling the flag once per received message, issues
the `cancel` request at the first poll after the flag is set, i.e. within
one polling interval (at most `k` messages are processed when the flag was
set by poll `k`). -/
theorem barge_in_interrupt_propagation
    (flag psi : Nat → Bool) (items : List (Option String)) (msgs : List PyVal)
    (j k : Nat)
    (hmonoF : ∀ a b, a ≤ b → flag a = true → flag b = true)
    (hj : flag (2 * j) = true)
    (hk : psi k = true) (hkl : k < msgs.length) :
    ((tts_consumer flag items 0).all
        (fun p => !flag (2 * p.1) && decide (p.1 < j))) = true ∧
    (execute_stream psi msgs 0).2 = true ∧
    (execute_stream psi msgs 0).1.length ≤ k := by
  refine ⟨?_, ?_, ?_⟩
  · rw [List.all_eq_true]
    intro p hp
    obtain ⟨hflag, _⟩ := tts_consumer_spoken_flag flag items 0 p hp
    have hplt : p.1 < j := by
      by_contra hge
      push_neg at hge
      have hmono2 := hmonoF (2 * j) (2 * p.1) (by omega) hj
      rw [hflag] at hmono2
      exact Bool.noConfusion hmono2
    simp [hflag, hplt]
  · exact (execute_stream_cancel psi msgs 0 k (by omega) hk
      (by simpa using hkl)).1
  · have hlen := (execute_stream_cancel psi msgs 0 k (by omega) hk
      (by simpa using hkl)).2
    simpa using hlen

/-- The interrupt flag trace used by the witness: set from step 4 on. -/
def c3flag : Nat → Bool := fun n => decide (4 ≤ n)

/-- The stream-loop flag trace used by the witness: set from poll 1 on. -/
def c3psi : Nat → Bool := fun n => decide (1 ≤ n)

/-- Witness for `barge_in_interrupt_propagation` at concrete monotone flag
traces, a three-item queue and a two-message stream. -/
theorem barge_in_interrupt_propagation_witness :
    c3flag (2 * 2) = true ∧ c3psi 1 = true ∧
    ((tts_consumer c3flag [some "a", some "b", Option.none] 0).all
        (fun p => !c3flag (2 * p.1) && decide (p.1 < 2))) = true ∧
    (execute_stream c3psi [PyVal.str "m0", PyVal.str "m1"] 0).2 = true ∧
    (execute_stream c3psi [PyVal.str "m0", PyVal.str "m1"] 0).1.length ≤ 1 :=
  ⟨rfl, rfl,
   barge_in_interrupt_propagation c3flag c3psi
     [some "a", some "b", Option.none] [PyVal.str "m0", PyVal.str "m1"] 2 1
     (fun a b hab ha => by
       simp only [c3flag, decide_eq_true_eq] at ha ⊢; omega)
     rfl rfl (by decide)⟩

/-- The failing capture input: one 100 ms frame of clearly speech-level
energy (sample 3277, RMS ≈ 0.1 > threshold 0.02) followed by ten silent
frames — 100 ms of speech, far below the 300 ms configured minimum,
followed by more than 800 ms of silence. -/
def c4frames : List Frame :=
  [[3277], [0], [0], [0], [0], [0], [0], [0], [0], [0], [0]]

/-- The single speech-level frame of `c4frames` is classified as speech
under the default threshold. -/
theorem c4_speech_frame :
    is_speech_frame defaultVoiceConfig [3277] = true := by
  simp only [is_speech_frame, defaultVoiceConfig, frameMeanSq, decide_eq_true_eq]
  norm_num

/-- The silent frames of `c4frames` are not classified as speech. -/
theorem c4_silence_frame :
    is_speech_frame defaultVoiceConfig [0] = false := by
  simp only [is_speech_frame, defaultVoiceConfig, frameMeanSq]
  norm_num

/-- C4 (code bug): on `c4frames` — speech-level energy spanning only
100 ms (one frame), below the configured 300 ms minimum, then silence
exceeding the configured 800 ms — segmentation nevertheless terminates and
returns the whole attempt instead of discarding it.  The guard
`(time.time() - speech_start) * 1000 > vad_min_speech_ms` measures time
since speech onset, which includes the trailing silence, so once the
800 ms silence gate opens the "minimum speech" test can never fail and the
reset branch (`# Too short, reset`) is unreachable with the default
configuration. -/
theorem capture_short_speech_returned :
    capture_run defaultVoiceConfig c4frames 0 {} = some c4frames ∧
    (c4frames.filter (is_speech_frame defaultVoiceConfig)).length * 100 = 100 ∧
    100 < defaultVoiceConfig.vad_min_speech_ms := by
  have hsil : defaultVoiceConfig.vad_silence_ms = 800 := rfl
  have hmin : defaultVoiceConfig.vad_min_speech_ms = 300 := rfl
  refine ⟨?_, ?_, by decide⟩
  · simp [c4frames, capture_run, capture_step, c4_speech_frame,
          c4_silence_frame, hsil, hmin]
  · simp [c4frames, List.filter, c4_speech_frame, c4_silence_frame]

/-- C8 (counterexample): in the fallback playback path, when ffmpeg has
produced the converted wav and `sd.play`/`sd.wait` then fails, the
`except Exception` handler skips the `os.unlink(wav_path)` statement (it is
inside the `try` body, not a `finally`), so the wav file survives the
playback unit: starting from no temp files, only the spooled mp3 is
removed and `tmp.wav` is left behind. -/
theorem speak_edge_wav_leak :
    speak_edge
      { hasPygame := false, pygameFails := false, saveFails := false,
        cancelSet := false, ffmpegMakesWav := true, wavReadFails := false,
        sdPlayFails := true } [] = (["tmp.wav"], false) ∧
    ("tmp.wav" : String) ∈
      (speak_edge
        { hasPygame := false, pygameFails := false, saveFails := false,
          cancelSet := false, ffmpegMakesWav := true, wavReadFails := false,
          sdPlayFails := true } []).1 := by
  refine ⟨rfl, ?_⟩
  rw [show (speak_edge
      { hasPygame := false, pygameFails := false, saveFails := false,
        cancelSet := false, ffmpegMakesWav := true, wavReadFails := false,
        sdPlayFails := true } []).1 = ["tmp.wav"] from rfl]
  exact List.mem_singleton.mpr rfl

/-- C8 (amended): the spooled mp3 of a playback unit is removed on every
exit path, including synthesis and playback failures (the `finally` block
guarantees it); the converted wav of the fallback path, however, is only
guaranteed removed when conversion, reading and playback all succeed — on
a failure after conversion it is leaked, as the counterexample shows. -/
theorem speak_edge_temp_cleanup (o : TtsRun) (w : List String) :
    ("tmp.mp3" : String) ∉ (speak_edge o w).1 ∧
    (o.saveFails = false → o.cancelSet = false → o.hasPygame = false →
     o.ffmpegMakesWav = true → o.wavReadFails = false → o.sdPlayFails = false →
     ("tmp.wav" : String) ∉ (speak_edge o w).1) := by
  constructor
  · intro hmem
    simp only [speak_edge, List.mem_filter] at hmem
    simp at hmem
  · intro h1 h2 h3 h4 h5 h6 hmem
    simp [speak_edge, play_audio_file, h1, h2, h3, h4, h5, h6,
      List.mem_filter] at hmem

/-- Witness for `speak_edge_temp_cleanup`: on a fully successful fallback
run starting with no temp files, neither the mp3 nor the wav survives. -/
theorem speak_edge_temp_cleanup_witness :
    ("tmp.wav" : String) ∉ ([] : List String) ∧
    ("tmp.mp3" : String) ∉
      (speak_edge
        { hasPygame := false, pygameFails := false, saveFails := false,
          cancelSet := false, ffmpegMakesWav := true, wavReadFails := false,
          sdPlayFails := false } []).1 ∧
    ("tmp.wav" : String) ∉
      (speak_edge
        { hasPygame := false, pygameFails := false, saveFails := false,
          cancelSet := false, ffmpegMakesWav := true, wavReadFails := false,
          sdPlayFails := false } []).1 :=
  ⟨List.not_mem_nil _,
   (speak_edge_temp_cleanup
      { hasPygame := false, pygameFails := false, saveFails := false,
        cancelSet := false, ffmpegMakesWav := true, wavReadFails := false,
        sdPlayFails := false } []).1,
   (speak_edge_temp_cleanup
      { hasPygame := false, pygameFails := false, saveFails := false,
        cancelSet := false, ffmpegMakesWav := true, wavReadFails := false,
        sdPlayFails := false } []).2
     rfl rfl rfl rfl rfl rfl⟩
